import Mathlib

/-!
Verification development for the trunk-recorder "Status Over UDP" plugin
(src/status_udp.cc).  The C++ source is shallowly embedded: machine
integers (u8/u16/u32) become Nat with explicit masking or `% 2 ^ w`
where the C++ performs an integral conversion, `long`/`time_t` host
inputs become Int converted through the C++ unsigned-conversion rule
(value taken modulo 2 ^ w, non-negative representative), and the
stateful dispatcher (`Status_Udp::send_packet`) becomes an explicit
state-passing function whose environment inputs (the `sendto` return
value and `errno`) are parameters.
-/

/-! ## Wire format: the Packet struct (src/status_udp.cc lines 57-123) -/

/-- The `Type : u8` enum, value `Type_Invalid = 0`. -/
def Type_Invalid : Nat := 0

/-- The `Type : u8` enum, value `Unit_On = 1`. -/
def Unit_On : Nat := 1

/-- The `Type : u8` enum, value `Unit_Off = 2`. -/
def Unit_Off : Nat := 2

/-- The `Type : u8` enum, value `Unit_AckResp = 3`. -/
def Unit_AckResp : Nat := 3

/-- The `Type : u8` enum, value `Unit_Join = 4`. -/
def Unit_Join : Nat := 4

/-- The `Type : u8` enum, value `Unit_Data = 5`. -/
def Unit_Data : Nat := 5

/-- The `Type : u8` enum, value `Unit_AnsReq = 6`. -/
def Unit_AnsReq : Nat := 6

/-- The `Type : u8` enum, value `Unit_Location = 7`. -/
def Unit_Location : Nat := 7

/-- The `Type : u8` enum, value `Unit_PTTP = 8`. -/
def Unit_PTTP : Nat := 8

/-- The packed 20-byte `struct Packet`.  Field defaults are the C++
in-class initializers: `hdr = {'M','C'}` (ASCII 77, 67), `typ =
Type_Invalid`, `len = 5`, every numeric field 0.  Bytes are modelled as
Nat; each field's intended width is the width of its C++ type. -/
structure Packet where
  hdr0 : Nat := 77
  hdr1 : Nat := 67
  typ : Nat := 0
  len : Nat := 5
  p25Id : Nat := 0
  nac : Nat := 0
  tgId : Nat := 0
  radioId : Nat := 0
  ts : Nat := 0
deriving DecidableEq

/-- `Packet::operator==` (lines 89-98): compares `typ`, `len`, `p25Id`,
`nac`, `tgId`, `radioId`, `ts`; the `hdr` magic bytes are not compared. -/
def pktEq (p o : Packet) : Bool :=
  p.typ == o.typ &&
  p.len == o.len &&
  p.p25Id == o.p25Id &&
  p.nac == o.nac &&
  p.tgId == o.tgId &&
  p.radioId == o.radioId &&
  p.ts == o.ts

/-- `p25_system_id` (lines 106-108): `static_cast<u16>(p >> 20)`. -/
def p25_system_id (p : Nat) : Nat := (p >>> 20) % 65536

/-- `p25_wacn` (lines 109-111): `p & 0xFFFFF`. -/
def p25_wacn (p : Nat) : Nat := p &&& 0xFFFFF

/-- `p25_nac` (lines 112-114): `p & 0x0FFF`. -/
def p25_nac (p : Nat) : Nat := p &&& 0xFFF

/-- `payload_bytes` (lines 115-117): `p.len * 4`. -/
def payload_bytes (p : Packet) : Nat := p.len * 4

/-- `valid_hdr` (lines 118-120): `p.hdr[0] == 'M' && p.hdr[1] == 'C'`. -/
def valid_hdr (p : Packet) : Bool := p.hdr0 == 77 && p.hdr1 == 67

/-- `make_p25id` (lines 121-123):
`(u32(sysId & 0x0FFF) << 20) | (wacn & 0xFFFFF)`.
Both operands fit in 32 bits, so the u32 arithmetic never wraps. -/
def make_p25id (sysId : Nat) (wacn : Nat) : Nat :=
  ((sysId &&& 0xFFF) <<< 20) ||| (wacn &&& 0xFFFFF)

/-- C++ integral conversion of a (possibly signed) host integer to
`u16`: the unique value in `[0, 2 ^ 16)` congruent modulo `2 ^ 16`. -/
def toU16 (x : Int) : Nat := (x % 65536).toNat

/-- C++ integral conversion of a (possibly signed) host integer to
`u32`: the unique value in `[0, 2 ^ 32)` congruent modulo `2 ^ 32`. -/
def toU32 (x : Int) : Nat := (x % 4294967296).toNat

/-! ### Arithmetic characterization of the bit packing -/

lemma and_fff_eq_mod (s : Nat) : s &&& 4095 = s % 4096 := by
  have h := Nat.and_pow_two_sub_one_eq_mod s 12
  norm_num at h
  exact h

lemma and_fffff_eq_mod (w : Nat) : w &&& 1048575 = w % 1048576 := by
  have h := Nat.and_pow_two_sub_one_eq_mod w 20
  norm_num at h
  exact h

lemma make_p25id_arith (s w : Nat) :
    make_p25id s w = (s % 4096) * 1048576 + w % 1048576 := by
  unfold make_p25id
  rw [show (0xFFF : Nat) = 4095 from rfl, show (0xFFFFF : Nat) = 1048575 from rfl,
    and_fff_eq_mod, and_fffff_eq_mod, Nat.shiftLeft_eq]
  have hlt : w % 1048576 < 2 ^ 20 := by
    have : w % 1048576 < 1048576 := Nat.mod_lt _ (by norm_num)
    omega
  have hor := Nat.mul_add_lt_is_or hlt (s % 4096)
  rw [Nat.mul_comm (2 ^ 20) (s % 4096)] at hor
  rw [← hor]

/-- **C2.** Composite-ID round trip: for every `system_id` (u16) and
`wide_area_code` (u32), `p25_system_id (make_p25id s w) = s &&& 0xFFF`
and `p25_wacn (make_p25id s w) = w &&& 0xFFFFF`; packing masks
`system_id` to 12 bits and `wide_area_code` to 20 bits and combines
them as `(system_id << 20) | wide_area_code`, i.e. arithmetically as
`(s % 2 ^ 12) * 2 ^ 20 + w % 2 ^ 20`. -/
theorem claim_C2_roundtrip (s w : Nat) (_hs : s < 65536) (_hw : w < 4294967296) :
    p25_system_id (make_p25id s w) = s &&& 0xFFF ∧
    p25_wacn (make_p25id s w) = w &&& 0xFFFFF ∧
    make_p25id s w = (s % 4096) * 1048576 + w % 1048576 := by
  refine ⟨?_, ?_, make_p25id_arith s w⟩
  · unfold p25_system_id
    rw [make_p25id_arith, Nat.shiftRight_eq_div_pow,
      show (0xFFF : Nat) = 4095 from rfl, and_fff_eq_mod]
    have h1 : s % 4096 < 4096 := Nat.mod_lt _ (by norm_num)
    have h2 : w % 1048576 < 1048576 := Nat.mod_lt _ (by norm_num)
    have hpow : (2 : Nat) ^ 20 = 1048576 := by norm_num
    rw [hpow]
    omega
  · unfold p25_wacn
    rw [make_p25id_arith, show (0xFFFFF : Nat) = 1048575 from rfl,
      and_fffff_eq_mod, and_fffff_eq_mod]
    have h2 : w % 1048576 < 1048576 := Nat.mod_lt _ (by norm_num)
    omega

/-- Witness for C2 at `system_id = 0xABC3`, `wide_area_code = 0xFABCDE`:
the hypotheses are concrete bounds and the conclusion evaluates. -/
theorem claim_C2_witness :
    p25_system_id (make_p25id 43971 16432350) = 43971 &&& 0xFFF ∧
    p25_wacn (make_p25id 43971 16432350) = 16432350 &&& 0xFFFFF ∧
    make_p25id 43971 16432350 = (43971 % 4096) * 1048576 + 16432350 % 1048576 :=
  claim_C2_roundtrip 43971 16432350 (by norm_num) (by norm_num)

/-! ## Dispatcher model (class Status_Udp, lines 125-143 and 367-414) -/

/-- `struct UdpTarget` (lines 39-43).  `sockValid` models
`sock != INVALID_SOCKET`; `addrlen` is the stored `socklen_t`. -/
structure UdpTarget where
  sockValid : Bool := false
  addrlen : Nat := 0
deriving DecidableEq

/-- The mutable plugin state relevant to dispatch: `udp_socket` (line
138, zero-initialized, so the socket is invalid until
`open_udp_connection` succeeds) and the last-packet memo `last_packet`
(line 140, default-constructed `Packet{}`). -/
structure Status_Udp where
  udp_socket : UdpTarget := {}
  last_packet : Packet := {}
deriving DecidableEq

/-- The three return paths of `Status_Udp::send_packet`:
`notReady` is the `PLUGIN_FAILED` return when the socket is not
initialized (line 374), `sendFailed err` is the `PLUGIN_FAILURE` return
after `sendto` reported `-1` with `errno = err` (line 402), and
`success` is `PLUGIN_SUCCESS` (lines 379 and 405). -/
inductive SendResult where
  | success : SendResult
  | notReady : SendResult
  | sendFailed (err : Nat) : SendResult
deriving DecidableEq

/-- Result of one `send_packet` call: the returned code, the plugin
state after the call, and the list of datagrams handed to `sendto`
(empty or a single 20-byte packet). -/
structure SendStep where
  result : SendResult
  state : Status_Udp
  sent : List Packet
deriving DecidableEq

/-- `Status_Udp::send_packet` (lines 369-406).  The environment
supplies the `sendto` return value `bytesSent` (an `ssize_t`) and the
`errno` value `err` observed on failure.  In source order: the
not-initialized check (`sock == INVALID_SOCKET || addrlen == 0`), the
duplicate check against `last_packet` via `operator==`, the `sendto`
call, the unconditional memo update `last_packet = packet`, and finally
the `bytesSent == -1` error check. -/
def send_packet (st : Status_Udp) (packet : Packet) (bytesSent : Int) (err : Nat) :
    SendStep :=
  if st.udp_socket.sockValid = false ∨ st.udp_socket.addrlen = 0 then
    { result := .notReady, state := st, sent := [] }
  else if pktEq st.last_packet packet then
    { result := .success, state := st, sent := [] }
  else
    let st2 : Status_Udp := { st with last_packet := packet }
    if bytesSent = -1 then
      { result := .sendFailed err, state := st2, sent := [packet] }
    else
      { result := .success, state := st2, sent := [packet] }

/-- Sequential dispatch of a list of events, each with its environment
inputs: returns the final state, the per-call results, and the
concatenated list of datagrams handed to `sendto`. -/
def run_dispatch (st : Status_Udp) :
    List (Packet × Int × Nat) → Status_Udp × List SendResult × List Packet
  | [] => (st, [], [])
  | (p, bs, e) :: evs =>
    let step := send_packet st p bs e
    let rest := run_dispatch step.state evs
    (rest.1, step.result :: rest.2.1, step.sent ++ rest.2.2)

/-- A `Status_Udp` state is ready exactly when the not-initialized
check at the top of `send_packet` passes. -/
def isReady (st : Status_Udp) : Bool :=
  st.udp_socket.sockValid && !(st.udp_socket.addrlen == 0)

lemma pktEq_iff (p o : Packet) :
    pktEq p o = true ↔
      p.typ = o.typ ∧ p.len = o.len ∧ p.p25Id = o.p25Id ∧ p.nac = o.nac ∧
      p.tgId = o.tgId ∧ p.radioId = o.radioId ∧ p.ts = o.ts := by
  simp [pktEq, Bool.and_eq_true, beq_iff_eq, and_assoc]

lemma send_packet_ready_eq (st : Status_Udp) (p : Packet) (bs : Int) (e : Nat)
    (hready : isReady st = true) (hdup : pktEq st.last_packet p = true) :
    send_packet st p bs e = { result := .success, state := st, sent := [] } := by
  have h1 : st.udp_socket.sockValid = true := by
    simp [isReady, Bool.and_eq_true] at hready
    exact hready.1
  have h2 : ¬ st.udp_socket.addrlen = 0 := by
    simp [isReady, Bool.and_eq_true] at hready
    exact hready.2
  unfold send_packet
  rw [if_neg (by simp [h1, h2]), if_pos hdup]

lemma send_packet_ready_ne (st : Status_Udp) (p : Packet) (bs : Int) (e : Nat)
    (hready : isReady st = true) (hdup : pktEq st.last_packet p = false) :
    (send_packet st p bs e).state = { st with last_packet := p } ∧
    (send_packet st p bs e).sent = [p] ∧
    (send_packet st p bs e).result =
      (if bs = -1 then SendResult.sendFailed e else SendResult.success) := by
  have h1 : st.udp_socket.sockValid = true := by
    simp [isReady, Bool.and_eq_true] at hready
    exact hready.1
  have h2 : ¬ st.udp_socket.addrlen = 0 := by
    simp [isReady, Bool.and_eq_true] at hready
    exact hready.2
  unfold send_packet
  rw [if_neg (by simp [h1, h2]), if_neg (by simp [hdup])]
  by_cases hbs : bs = -1 <;> simp [hbs]

lemma send_packet_unready (st : Status_Udp) (p : Packet) (bs : Int) (e : Nat)
    (h : isReady st = false) :
    send_packet st p bs e = { result := .notReady, state := st, sent := [] } := by
  have hcond : st.udp_socket.sockValid = false ∨ st.udp_socket.addrlen = 0 := by
    simp [isReady] at h
    rcases Bool.eq_false_or_eq_true st.udp_socket.sockValid with hb | hb
    · exact Or.inr (h hb)
    · exact Or.inl hb
  unfold send_packet
  rw [if_pos hcond]

/-- A convenient ready dispatcher state with memo `m` (socket open,
non-zero address length). -/
def readyState (m : Packet) : Status_Udp :=
  { udp_socket := { sockValid := true, addrlen := 16 }, last_packet := m }

/-! ## Claim C1: duplicate suppression -/

/-- **C1 counterexample.**  The claim's dedup rule says two packets are
identical iff every field except `magic`/`length` is bit-equal, but
`Packet::operator==` also compares `len` (line 92): the two concrete
packets below agree on `typ`, `p25Id`, `nac`, `tgId`, `radioId`, `ts`
and differ only in `len`, yet `operator==` is false and dispatching the
second with the first stored in the memo transmits a datagram instead
of suppressing it. -/
theorem claim_C1_counterexample :
    (Packet.typ { typ := 1, len := 5 } = Packet.typ { typ := 1, len := 6 } ∧
     Packet.p25Id { typ := 1, len := 5 } = Packet.p25Id { typ := 1, len := 6 } ∧
     Packet.nac { typ := 1, len := 5 } = Packet.nac { typ := 1, len := 6 } ∧
     Packet.tgId { typ := 1, len := 5 } = Packet.tgId { typ := 1, len := 6 } ∧
     Packet.radioId { typ := 1, len := 5 } = Packet.radioId { typ := 1, len := 6 } ∧
     Packet.ts { typ := 1, len := 5 } = Packet.ts { typ := 1, len := 6 }) ∧
    pktEq { typ := 1, len := 5 } { typ := 1, len := 6 } = false ∧
    (send_packet (readyState { typ := 1, len := 5 }) { typ := 1, len := 6 } 20 0).sent =
      [{ typ := 1, len := 6 }] := by
  decide

/-- **C1 (amended).**  Two packets are identical for deduplication iff
every field except the magic bytes is bit-equal — `typ`, `len`,
`p25Id`, `nac`, `tgId`, `radioId` and `ts` all equal (the `len` field
participates in `operator==`).  Dispatching a candidate that is
field-equal to the stored memo on a ready endpoint returns success
without transmitting and leaves the state unchanged, and dispatching
two field-equal packets in sequence hands exactly one datagram to
`sendto`. -/
theorem claim_C1_amended :
    (∀ p q : Packet, pktEq p q = true ↔
      (p.typ = q.typ ∧ p.len = q.len ∧ p.p25Id = q.p25Id ∧ p.nac = q.nac ∧
       p.tgId = q.tgId ∧ p.radioId = q.radioId ∧ p.ts = q.ts)) ∧
    (∀ (st : Status_Udp) (p : Packet) (bs : Int) (e : Nat),
      isReady st = true → pktEq st.last_packet p = true →
      send_packet st p bs e = { result := .success, state := st, sent := [] }) ∧
    (∀ (st : Status_Udp) (p q : Packet) (bs1 bs2 : Int) (e1 e2 : Nat),
      isReady st = true → pktEq st.last_packet p = false → pktEq p q = true →
      (send_packet st p bs1 e1).sent ++
        (send_packet (send_packet st p bs1 e1).state q bs2 e2).sent = [p]) := by
  refine ⟨pktEq_iff, send_packet_ready_eq, ?_⟩
  intro st p q bs1 bs2 e1 e2 hready hne hdup
  obtain ⟨hstate, hsent, -⟩ := send_packet_ready_ne st p bs1 e1 hready hne
  have hready2 : isReady (send_packet st p bs1 e1).state = true := by
    rw [hstate]
    simpa [isReady] using hready
  have hmemo : (send_packet st p bs1 e1).state.last_packet = p := by
    rw [hstate]
  have hstep2 := send_packet_ready_eq (send_packet st p bs1 e1).state q bs2 e2
    hready2 (by rw [hmemo]; exact hdup)
  rw [hsent, hstep2]
  rfl

/-- Witness for C1 at concrete inputs: suppression of an exact
duplicate and the one-datagram property for a field-equal pair. -/
theorem claim_C1_witness :
    send_packet (readyState { typ := 1 }) { typ := 1 } 20 0 =
      { result := .success, state := readyState { typ := 1 }, sent := [] } ∧
    (send_packet (readyState {}) { typ := 2 } 20 0).sent ++
      (send_packet (send_packet (readyState {}) { typ := 2 } 20 0).state
        { typ := 2 } 20 0).sent = [{ typ := 2 }] :=
  ⟨claim_C1_amended.2.1 (readyState { typ := 1 }) { typ := 1 } 20 0
      (by decide) (by decide),
   claim_C1_amended.2.2 (readyState {}) { typ := 2 } { typ := 2 } 20 20 0 0
      (by decide) (by decide) (by decide)⟩

/-! ## Claim C3: unconditional memo update -/

/-- **C3.**  For a non-duplicate candidate on a ready endpoint, the
memo is updated to the candidate unconditionally: whatever `sendto`
returned (`bytesSent`, any value including `-1`), after `send_packet`
returns — with success or with the send-failure code — the stored
`last_packet` equals the candidate, and only the memo changed. -/
theorem claim_C3_memo_update (st : Status_Udp) (p : Packet) (bs : Int) (e : Nat)
    (hready : isReady st = true) (hdup : pktEq st.last_packet p = false) :
    (send_packet st p bs e).state.last_packet = p ∧
    (send_packet st p bs e).state.udp_socket = st.udp_socket ∧
    ((send_packet st p bs e).result = .success ∨
      (send_packet st p bs e).result = .sendFailed e) := by
  obtain ⟨hstate, -, hres⟩ := send_packet_ready_ne st p bs e hready hdup
  refine ⟨by rw [hstate], by rw [hstate], ?_⟩
  rw [hres]
  by_cases hbs : bs = -1
  · rw [if_pos hbs]
    exact Or.inr rfl
  · rw [if_neg hbs]
    exact Or.inl rfl

/-- Witness for C3: memo updated both when `sendto` succeeds
(`bytesSent = 20`) and when it fails (`bytesSent = -1`). -/
theorem claim_C3_witness :
    (send_packet (readyState {}) { typ := 3 } (-1) 111).state.last_packet =
      { typ := 3 } ∧
    (send_packet (readyState {}) { typ := 3 } 20 0).state.last_packet =
      { typ := 3 } :=
  ⟨(claim_C3_memo_update (readyState {}) { typ := 3 } (-1) 111
      (by decide) (by decide)).1,
   (claim_C3_memo_update (readyState {}) { typ := 3 } 20 0
      (by decide) (by decide)).1⟩

/-! ## Claim C6: send-failure reporting -/

/-- **C6 counterexample.**  The claim says a short write (fewer bytes
written than the 20-byte packet) is reported as `SendFailed`, but
`send_packet` only tests `bytesSent == -1` (line 398): with `sendto`
returning 10 (a short write, `10 < 20`) the call reports success. -/
theorem claim_C6_counterexample :
    (10 : Int) < 20 ∧
    (send_packet (readyState {}) { typ := 1 } 10 0).result = .success ∧
    (send_packet (readyState {}) { typ := 1 } 10 0).sent = [{ typ := 1 }] := by
  decide

/-- **C6 (amended).**  For every non-duplicate dispatch on a ready
endpoint, `send_packet` fails with the send-failure code carrying the
OS error exactly when `sendto` returned `-1`; every other return value
— including a short positive write count — is reported as success. -/
theorem claim_C6_amended (st : Status_Udp) (p : Packet) (bs : Int) (e : Nat)
    (hready : isReady st = true) (hdup : pktEq st.last_packet p = false) :
    ((send_packet st p bs e).result = .sendFailed e ↔ bs = -1) ∧
    (bs ≠ -1 → (send_packet st p bs e).result = .success) := by
  obtain ⟨-, -, hres⟩ := send_packet_ready_ne st p bs e hready hdup
  constructor
  · constructor
    · intro h
      by_contra hbs
      rw [hres, if_neg hbs] at h
      exact SendResult.noConfusion h
    · intro hbs
      rw [hres, if_pos hbs]
  · intro hbs
    rw [hres, if_neg hbs]

/-- Witness for C6 at concrete inputs: `sendto` returning `-1` yields
the failure code with the observed `errno`, returning 20 yields
success. -/
theorem claim_C6_witness :
    ((send_packet (readyState {}) { typ := 5 } (-1) 101).result =
        .sendFailed 101 ↔ (-1 : Int) = -1) ∧
    ((20 : Int) ≠ -1 →
      (send_packet (readyState {}) { typ := 5 } 20 101).result = .success) :=
  ⟨(claim_C6_amended (readyState {}) { typ := 5 } (-1) 101
      (by decide) (by decide)).1,
   (claim_C6_amended (readyState {}) { typ := 5 } 20 101
      (by decide) (by decide)).2⟩

/-! ## Claim C9: initial-memo edge case -/

/-- **C9 counterexample.**  The claim says every candidate whose `typ`,
`p25Id`, `nac`, `tgId`, `radioId` and `ts` are all zero is suppressed
by the freshly-constructed memo, but `operator==` also compares `len`:
a candidate with those six fields zero and `len = 6` differs from the
default memo (`len = 5`) and is transmitted, not suppressed. -/
theorem claim_C9_counterexample :
    (Packet.typ { typ := 0, len := 6 } = 0 ∧
     Packet.p25Id { typ := 0, len := 6 } = 0 ∧
     Packet.nac { typ := 0, len := 6 } = 0 ∧
     Packet.tgId { typ := 0, len := 6 } = 0 ∧
     Packet.radioId { typ := 0, len := 6 } = 0 ∧
     Packet.ts { typ := 0, len := 6 } = 0) ∧
    (send_packet (readyState {}) { typ := 0, len := 6 } 20 0).sent =
      [{ typ := 0, len := 6 }] := by
  decide

/-- **C9 (amended).**  Immediately after construction the memo holds
the default packet (`typ = 0`, `len = 5`, identifier, talkgroup, radio
and timestamp fields 0), which was never transmitted.  On a ready
endpoint whose memo is still that default: a candidate whose `typ`,
`p25Id`, `nac`, `tgId`, `radioId`, `ts` are all zero **and whose `len`
field is 5 (its default)** is suppressed as a duplicate — success, no
datagram — while every candidate with `typ ≥ 1` is never suppressed by
the initial memo and is handed to `sendto`. -/
theorem claim_C9_amended :
    (({} : Status_Udp).last_packet = ({} : Packet) ∧
      ({} : Packet).typ = 0 ∧ ({} : Packet).len = 5 ∧
      ({} : Packet).p25Id = 0 ∧ ({} : Packet).nac = 0 ∧
      ({} : Packet).tgId = 0 ∧ ({} : Packet).radioId = 0 ∧
      ({} : Packet).ts = 0) ∧
    (∀ (st : Status_Udp) (c : Packet) (bs : Int) (e : Nat),
      isReady st = true → st.last_packet = ({} : Packet) →
      c.typ = 0 → c.len = 5 → c.p25Id = 0 → c.nac = 0 → c.tgId = 0 →
      c.radioId = 0 → c.ts = 0 →
      send_packet st c bs e = { result := .success, state := st, sent := [] }) ∧
    (∀ (st : Status_Udp) (c : Packet) (bs : Int) (e : Nat),
      isReady st = true → st.last_packet = ({} : Packet) → 1 ≤ c.typ →
      (send_packet st c bs e).sent = [c]) := by
  refine ⟨by decide, ?_, ?_⟩
  · intro st c bs e hready hmemo h1 h2 h3 h4 h5 h6 h7
    apply send_packet_ready_eq st c bs e hready
    rw [hmemo, pktEq_iff]
    exact ⟨h1.symm, h2.symm, h3.symm, h4.symm, h5.symm, h6.symm, h7.symm⟩
  · intro st c bs e hready hmemo htyp
    have hne : pktEq st.last_packet c = false := by
      rcases Bool.eq_false_or_eq_true (pktEq st.last_packet c) with hb | hb
      · exfalso
        have := (pktEq_iff st.last_packet c).mp hb
        rw [hmemo] at this
        have h0 : (0 : Nat) = c.typ := this.1
        omega
      · exact hb
    exact (send_packet_ready_ne st c bs e hready hne).2.1

/-- Witness for C9: the all-zero default-length candidate is suppressed
on the fresh memo, while a `typ = 1` candidate is transmitted. -/
theorem claim_C9_witness :
    send_packet (readyState {}) {} 20 0 =
      { result := .success, state := readyState {}, sent := [] } ∧
    (send_packet (readyState {}) { typ := 1 } 20 0).sent = [{ typ := 1 }] :=
  ⟨claim_C9_amended.2.1 (readyState {}) {} 20 0 (by decide) (by decide)
      (by decide) (by decide) (by decide) (by decide) (by decide) (by decide)
      (by decide),
   claim_C9_amended.2.2 (readyState {}) { typ := 1 } 20 0 (by decide)
      (by decide) (by decide)⟩

/-! ## Destination URI parsing (lines 417-491) -/

/-- The literal scheme `udp://` checked by `uri.rfind(prefix, 0) == 0`. -/
def SCHEME : List Char := ['u', 'd', 'p', ':', '/', '/']

/-- The default port string `"7767"` (lines 430 and 434). -/
def DEFAULT_PORT : List Char := ['7', '7', '6', '7']

/-- The unspecified IPv4 address literal `"0.0.0.0"` (line 452). -/
def UNSPEC_V4 : List Char := ['0', '.', '0', '.', '0', '.', '0']

/-- The unspecified IPv6 address literal `"::"` (line 452). -/
def UNSPEC_V6 : List Char := [':', ':']

/-- `std::string::find_last_of` for a single character, on the
character list: index of the last occurrence, or `none` for `npos`. -/
def revFindIdx (c : Char) : List Char → Option Nat
  | [] => none
  | a :: as =>
    match revFindIdx c as with
    | some i => some (i + 1)
    | none => if a = c then some 0 else none

/-- `Status_Udp::parse_udp_uri` (lines 417-440).  Strings are modelled
as character lists.  Returns `none` when the function returns `false`
(scheme mismatch, or the host computed by the split is empty) and
`some (host, port)` when it returns `true`. -/
def parse_udp_uri (uri : List Char) : Option (List Char × List Char) :=
  if SCHEME.isPrefixOf uri then
    let without_scheme := uri.drop SCHEME.length
    let hp :=
      match revFindIdx ':' without_scheme with
      | none => (without_scheme, DEFAULT_PORT)
      | some colon =>
        let host := without_scheme.take colon
        let port := without_scheme.drop (colon + 1)
        (host, if port = [] then DEFAULT_PORT else port)
    if hp.1 = [] then none else some hp
  else none

/-- The outcome of `Status_Udp::make_udp_target` (lines 442-491) up to
the name-resolution boundary: the early `return target` with
`sock == INVALID_SOCKET` after a failed parse, the early return for an
unspecified destination host, or the hand-off of `(host, port)` to
`getaddrinfo`. -/
inductive TargetOutcome where
  | invalidUri : TargetOutcome
  | unspecifiedDest : TargetOutcome
  | resolved (host port : List Char) : TargetOutcome
deriving DecidableEq

/-- The pure prefix of `make_udp_target`: parse, then reject the
unspecified addresses `"0.0.0.0"` and `"::"` (line 452). -/
def classify_udp_target (uri : List Char) : TargetOutcome :=
  match parse_udp_uri uri with
  | none => .invalidUri
  | some (host, port) =>
    if host = UNSPEC_V4 ∨ host = UNSPEC_V6 then .unspecifiedDest
    else .resolved host port

/-- `make_udp_target` including the environment-dependent tail:
`resolveOk` tells whether both `getaddrinfo` and `socket()` succeeded,
`alen` is the resolved `ai_addrlen`.  On every failure path the
function returns the zero-initialized target (`sock = INVALID_SOCKET`,
`addrlen = 0`). -/
def make_udp_target (uri : List Char) (resolveOk : Bool) (alen : Nat) : UdpTarget :=
  match classify_udp_target uri with
  | .resolved _ _ =>
    if resolveOk then { sockValid := true, addrlen := alen } else {}
  | _ => {}

lemma revFindIdx_eq_none (c : Char) (l : List Char) (h : c ∉ l) :
    revFindIdx c l = none := by
  induction l with
  | nil => rfl
  | cons a as ih =>
    rw [List.mem_cons, not_or] at h
    simp only [revFindIdx, ih h.2]
    rw [if_neg (fun hac => h.1 hac.symm)]

lemma revFindIdx_append_last (c : Char) (h p : List Char) (hp : c ∉ p) :
    revFindIdx c (h ++ c :: p) = some h.length := by
  induction h with
  | nil => simp [revFindIdx, revFindIdx_eq_none c p hp]
  | cons a as ih => simp [revFindIdx, ih]

lemma isPrefixOf_append (l r : List Char) : l.isPrefixOf (l ++ r) = true := by
  induction l with
  | nil => simp [List.isPrefixOf]
  | cons a as ih => simp [List.isPrefixOf, ih]

/-! ## Claim C4: destination-URI parsing -/

/-- **C4.**  Destination-URI parsing.  (i) An input not beginning with
the literal scheme `udp://` is rejected (the invalid-URI outcome).
(ii) When the remainder after the scheme contains no colon, the whole
remainder is the host and the port defaults to `7767`; an empty host is
rejected, and a host equal to `0.0.0.0` or `::` is rejected as an
unspecified destination.  (iii) When the remainder decomposes as
`host ++ ":" ++ port` with no colon in `port` (so that colon is the
last one), the host is everything before that colon and the port is
what follows, the port falling back to `7767` when empty; the same host
validation applies. -/
theorem claim_C4_uri_parsing :
    (∀ uri : List Char, SCHEME.isPrefixOf uri = false →
      classify_udp_target uri = .invalidUri) ∧
    (∀ rest : List Char, ':' ∉ rest →
      classify_udp_target (SCHEME ++ rest) =
        if rest = [] then .invalidUri
        else if rest = UNSPEC_V4 ∨ rest = UNSPEC_V6 then .unspecifiedDest
        else .resolved rest DEFAULT_PORT) ∧
    (∀ host port : List Char, ':' ∉ port →
      classify_udp_target (SCHEME ++ host ++ ':' :: port) =
        if host = [] then .invalidUri
        else if host = UNSPEC_V4 ∨ host = UNSPEC_V6 then .unspecifiedDest
        else .resolved host (if port = [] then DEFAULT_PORT else port)) := by
  refine ⟨?_, ?_, ?_⟩
  · intro uri h
    simp [classify_udp_target, parse_udp_uri, h]
  · intro rest hrest
    have hpre := isPrefixOf_append SCHEME rest
    have hdrop : (SCHEME ++ rest).drop SCHEME.length = rest := List.drop_left SCHEME rest
    have hfind : revFindIdx ':' rest = none := revFindIdx_eq_none ':' rest hrest
    simp only [classify_udp_target, parse_udp_uri, hpre, if_true, hdrop, hfind]
    by_cases hr : rest = []
    · simp [hr]
    · simp only [hr, if_neg hr, ite_false]
  · intro host port hport
    have hassoc : SCHEME ++ host ++ ':' :: port = SCHEME ++ (host ++ ':' :: port) :=
      List.append_assoc SCHEME host (':' :: port)
    have hpre := isPrefixOf_append SCHEME (host ++ ':' :: port)
    have hdrop : (SCHEME ++ (host ++ ':' :: port)).drop SCHEME.length =
        host ++ ':' :: port := List.drop_left SCHEME (host ++ ':' :: port)
    have hfind : revFindIdx ':' (host ++ ':' :: port) = some host.length :=
      revFindIdx_append_last ':' host port hport
    have htake : (host ++ ':' :: port).take host.length = host :=
      List.take_left host (':' :: port)
    have hdrop2 : (host ++ ':' :: port).drop (host.length + 1) = port := by
      have h1 : host ++ ':' :: port = (host ++ [':']) ++ port := by
        rw [List.append_assoc]
        rfl
      have h2 : (host ++ [':']).length = host.length + 1 := by
        simp
      rw [h1, ← h2, List.drop_left]
    rw [hassoc]
    simp only [classify_udp_target, parse_udp_uri, hpre, if_true, hdrop, hfind,
      htake, hdrop2]
    by_cases hh : host = []
    · simp [hh]
    · simp only [hh, if_neg hh, ite_false]

/-- Witness for C4 on the spec's examples: a non-`udp://` input, a
host with no colon taking the default port, the explicit-port and
trailing-colon forms, and the rejected `0.0.0.0` destination. -/
theorem claim_C4_witness :
    classify_udp_target ['t', 'c', 'p', ':', '/', '/', 'x'] = .invalidUri ∧
    classify_udp_target (SCHEME ++ ['1', '2', '7', '.', '0', '.', '0', '.', '1']) =
      .resolved ['1', '2', '7', '.', '0', '.', '0', '.', '1'] DEFAULT_PORT ∧
    classify_udp_target (SCHEME ++ ['h', 'o', 's', 't'] ++ ':' :: ['9', '9', '9', '9']) =
      .resolved ['h', 'o', 's', 't'] ['9', '9', '9', '9'] ∧
    classify_udp_target (SCHEME ++ ['h', 'o', 's', 't'] ++ ':' :: []) =
      .resolved ['h', 'o', 's', 't'] DEFAULT_PORT ∧
    classify_udp_target (SCHEME ++ UNSPEC_V4) = .unspecifiedDest :=
  ⟨claim_C4_uri_parsing.1 ['t', 'c', 'p', ':', '/', '/', 'x'] (by decide),
   (by simpa using claim_C4_uri_parsing.2.1 ['1', '2', '7', '.', '0', '.', '0', '.', '1'] (by decide)),
   (by simpa using claim_C4_uri_parsing.2.2 ['h', 'o', 's', 't'] ['9', '9', '9', '9'] (by decide)),
   (by simpa using claim_C4_uri_parsing.2.2 ['h', 'o', 's', 't'] [] (by decide)),
   (by simpa using claim_C4_uri_parsing.2.1 UNSPEC_V4 (by decide))⟩

/-! ## Claim C5: fail-fast when unready -/

/-- **C5.**  (i) `make_udp_target` yields a ready target only when the
URI classified to a `(host, port)` hand-off **and** resolution plus
socket creation succeeded — contrapositively, any parse, validation or
resolver failure leaves the target with an invalid socket.  (ii) From
any unready state, every dispatch in any sequence of calls returns the
not-ready failure, no datagram is ever handed to `sendto`, and the
state — both the memo and the (unready) endpoint — is left untouched,
with no resolution re-attempted by `send_packet`. -/
theorem claim_C5_fail_fast :
    (∀ (uri : List Char) (rOk : Bool) (alen : Nat),
      (make_udp_target uri rOk alen).sockValid = true →
      rOk = true ∧ ∃ hs ps, classify_udp_target uri = .resolved hs ps) ∧
    (∀ (st : Status_Udp) (evs : List (Packet × Int × Nat)),
      isReady st = false →
      run_dispatch st evs = (st, evs.map (fun _ => SendResult.notReady), [])) := by
  constructor
  · intro uri rOk alen h
    unfold make_udp_target at h
    cases hc : classify_udp_target uri with
    | invalidUri =>
      rw [hc] at h
      exact Bool.noConfusion h
    | unspecifiedDest =>
      rw [hc] at h
      exact Bool.noConfusion h
    | resolved hh pp =>
      rw [hc] at h
      by_cases hr : rOk = true
      · exact ⟨hr, hh, pp, rfl⟩
      · have hrf : rOk = false := by
          cases rOk
          · rfl
          · exact absurd rfl hr
        rw [hrf] at h
        rw [if_neg (by decide)] at h
        exact Bool.noConfusion h
  · intro st evs h
    induction evs with
    | nil => rfl
    | cons ev tl ih =>
      obtain ⟨p, bs, e⟩ := ev
      simp only [run_dispatch, send_packet_unready st p bs e h, ih, List.map_cons]
      rfl

/-- Witness for C5: a successfully parsed and resolved target, and a
two-event dispatch sequence from the freshly-constructed (unready)
plugin state. -/
theorem claim_C5_witness :
    ((true : Bool) = true ∧ ∃ hs ps,
      classify_udp_target (SCHEME ++ ['h', 'o', 's', 't']) = .resolved hs ps) ∧
    run_dispatch {} [({ typ := 1 }, 20, 0), ({ typ := 2 }, -1, 13)] =
      ({}, [SendResult.notReady, SendResult.notReady], []) :=
  ⟨claim_C5_fail_fast.1 (SCHEME ++ ['h', 'o', 's', 't']) true 16 (by decide),
   (by simpa using claim_C5_fail_fast.2 {} [({ typ := 1 }, 20, 0), ({ typ := 2 }, -1, 13)] (by decide))⟩

/-! ## Event-callback packet construction (lines 152-314) -/

/-- Packet built by `call_start` (lines 160-166): `Packet pkt{}` then
`typ = Unit_PTTP`, `p25Id = make_p25id(site, wacn)`, `nac = p25_nac(nac)`,
`tgId = call->get_talkgroup()` (a `long`, converted to u16),
`radioId = source_id` (already a u32 read from the stats node),
`ts = time(NULL)` (a `time_t`, converted to u32). -/
def call_start_packet (siteId wacn nacV : Int) (talkgroup : Int)
    (source_id : Nat) (t : Int) : Packet :=
  { typ := Unit_PTTP
  , p25Id := make_p25id (toU16 siteId) (toU32 wacn)
  , nac := p25_nac (toU32 nacV)
  , tgId := toU16 talkgroup
  , radioId := source_id % 4294967296
  , ts := toU32 t }

/-- Packet built by `unit_registration` (lines 177-192): type `Unit_On`;
`tgId` keeps its default 0. -/
def unit_registration_packet (siteId wacn nacV : Int) (source_id : Int)
    (t : Int) : Packet :=
  { typ := Unit_On
  , p25Id := make_p25id (toU16 siteId) (toU32 wacn)
  , nac := p25_nac (toU32 nacV)
  , radioId := toU32 source_id
  , ts := toU32 t }

/-- Packet built by `unit_deregistration` (lines 197-212): type `Unit_Off`. -/
def unit_deregistration_packet (siteId wacn nacV : Int) (source_id : Int)
    (t : Int) : Packet :=
  { typ := Unit_Off
  , p25Id := make_p25id (toU16 siteId) (toU32 wacn)
  , nac := p25_nac (toU32 nacV)
  , radioId := toU32 source_id
  , ts := toU32 t }

/-- Packet built by `unit_acknowledge_response` (lines 217-232): type
`Unit_AckResp`. -/
def unit_acknowledge_response_packet (siteId wacn nacV : Int) (source_id : Int)
    (t : Int) : Packet :=
  { typ := Unit_AckResp
  , p25Id := make_p25id (toU16 siteId) (toU32 wacn)
  , nac := p25_nac (toU32 nacV)
  , radioId := toU32 source_id
  , ts := toU32 t }

/-- Packet built by `unit_group_affiliation` (lines 237-253): type
`Unit_Join`; `tgId = talkgroup_num` and `radioId = source_id`, both
`long`s narrowed to u16 / u32. -/
def unit_group_affiliation_packet (siteId wacn nacV : Int)
    (source_id talkgroup_num : Int) (t : Int) : Packet :=
  { typ := Unit_Join
  , p25Id := make_p25id (toU16 siteId) (toU32 wacn)
  , nac := p25_nac (toU32 nacV)
  , tgId := toU16 talkgroup_num
  , radioId := toU32 source_id
  , ts := toU32 t }

/-- Packet built by `unit_data_grant` (lines 258-273): type `Unit_Data`. -/
def unit_data_grant_packet (siteId wacn nacV : Int) (source_id : Int)
    (t : Int) : Packet :=
  { typ := Unit_Data
  , p25Id := make_p25id (toU16 siteId) (toU32 wacn)
  , nac := p25_nac (toU32 nacV)
  , radioId := toU32 source_id
  , ts := toU32 t }

/-- Packet built by `unit_answer_request` (lines 277-293): type
`Unit_AnsReq`. -/
def unit_answer_request_packet (siteId wacn nacV : Int)
    (source_id talkgroup_num : Int) (t : Int) : Packet :=
  { typ := Unit_AnsReq
  , p25Id := make_p25id (toU16 siteId) (toU32 wacn)
  , nac := p25_nac (toU32 nacV)
  , tgId := toU16 talkgroup_num
  , radioId := toU32 source_id
  , ts := toU32 t }

/-- Packet built by `unit_location` (lines 298-314): type `Unit_Location`. -/
def unit_location_packet (siteId wacn nacV : Int)
    (source_id talkgroup_num : Int) (t : Int) : Packet :=
  { typ := Unit_Location
  , p25Id := make_p25id (toU16 siteId) (toU32 wacn)
  , nac := p25_nac (toU32 nacV)
  , tgId := toU16 talkgroup_num
  , radioId := toU32 source_id
  , ts := toU32 t }

/-- The invariant claimed for every packet handed to `send_packet` by a
callback: magic bytes `M`,`C`, length field 5, type in `1..8`, and a
NAC masked to 12 bits. -/
def wellFormed (p : Packet) : Prop :=
  p.hdr0 = 77 ∧ p.hdr1 = 67 ∧ p.len = 5 ∧ 1 ≤ p.typ ∧ p.typ ≤ 8 ∧ p.nac < 4096

lemma p25_nac_lt (x : Nat) : p25_nac x < 4096 := by
  unfold p25_nac
  have h : x &&& 0xFFF ≤ 0xFFF := Nat.and_le_right
  omega

/-- **C7.**  Produced-packet invariant: every packet constructed by one
of the eight event callbacks has magic bytes `M`,`C` (from the in-class
initializer, never overwritten), length field 5 (20 bytes), a type in
`1..8` (the reserved value 0 is never used by a callback), and a `nac`
masked to 12 bits, so its top 4 bits are zero. -/
theorem claim_C7_packet_invariant :
    (∀ (a b c d : Int) (s : Nat) (t : Int), wellFormed (call_start_packet a b c d s t)) ∧
    (∀ a b c d t : Int, wellFormed (unit_registration_packet a b c d t)) ∧
    (∀ a b c d t : Int, wellFormed (unit_deregistration_packet a b c d t)) ∧
    (∀ a b c d t : Int, wellFormed (unit_acknowledge_response_packet a b c d t)) ∧
    (∀ a b c d e t : Int, wellFormed (unit_group_affiliation_packet a b c d e t)) ∧
    (∀ a b c d t : Int, wellFormed (unit_data_grant_packet a b c d t)) ∧
    (∀ a b c d e t : Int, wellFormed (unit_answer_request_packet a b c d e t)) ∧
    (∀ a b c d e t : Int, wellFormed (unit_location_packet a b c d e t)) := by
  exact ⟨fun a b c d s t =>
      ⟨rfl, rfl, rfl, (by decide : (1 : Nat) ≤ 8), (by decide : (8 : Nat) ≤ 8), p25_nac_lt _⟩,
    fun a b c d t =>
      ⟨rfl, rfl, rfl, (by decide : (1 : Nat) ≤ 1), (by decide : (1 : Nat) ≤ 8), p25_nac_lt _⟩,
    fun a b c d t =>
      ⟨rfl, rfl, rfl, (by decide : (1 : Nat) ≤ 2), (by decide : (2 : Nat) ≤ 8), p25_nac_lt _⟩,
    fun a b c d t =>
      ⟨rfl, rfl, rfl, (by decide : (1 : Nat) ≤ 3), (by decide : (3 : Nat) ≤ 8), p25_nac_lt _⟩,
    fun a b c d e t =>
      ⟨rfl, rfl, rfl, (by decide : (1 : Nat) ≤ 4), (by decide : (4 : Nat) ≤ 8), p25_nac_lt _⟩,
    fun a b c d t =>
      ⟨rfl, rfl, rfl, (by decide : (1 : Nat) ≤ 5), (by decide : (5 : Nat) ≤ 8), p25_nac_lt _⟩,
    fun a b c d e t =>
      ⟨rfl, rfl, rfl, (by decide : (1 : Nat) ≤ 6), (by decide : (6 : Nat) ≤ 8), p25_nac_lt _⟩,
    fun a b c d e t =>
      ⟨rfl, rfl, rfl, (by decide : (1 : Nat) ≤ 7), (by decide : (7 : Nat) ≤ 8), p25_nac_lt _⟩⟩

lemma toU16_lt (x : Int) : toU16 x < 65536 := by
  unfold toU16
  omega

lemma toU16_mod (x : Int) : (toU16 x : Int) % 65536 = x % 65536 := by
  unfold toU16
  omega

lemma toU32_lt (x : Int) : toU32 x < 4294967296 := by
  unfold toU32
  omega

lemma toU32_mod (x : Int) : (toU32 x : Int) % 4294967296 = x % 4294967296 := by
  unfold toU32
  omega

/-- **C10.**  Silent narrowing at the event interface: in the
affiliation callback the host-supplied `long` talkgroup number is
stored into the 2-byte `tgId` field and the `long` source identifier
into the 4-byte `radioId` field, and in both the affiliation and
call-start callbacks the `time_t` current time is stored into the
4-byte `ts` field: each stored value lies below `2 ^ 16` resp. `2 ^ 32`
and is congruent to the host value modulo that width — truncation, for
every host value, never rejection. -/
theorem claim_C10_narrowing (siteId wacn nacV source_id talkgroup_num t : Int)
    (srcU32 : Nat) :
    (unit_group_affiliation_packet siteId wacn nacV source_id talkgroup_num t).tgId < 65536 ∧
    ((unit_group_affiliation_packet siteId wacn nacV source_id talkgroup_num t).tgId : Int) % 65536 =
      talkgroup_num % 65536 ∧
    (unit_group_affiliation_packet siteId wacn nacV source_id talkgroup_num t).radioId < 4294967296 ∧
    ((unit_group_affiliation_packet siteId wacn nacV source_id talkgroup_num t).radioId : Int) % 4294967296 =
      source_id % 4294967296 ∧
    (unit_group_affiliation_packet siteId wacn nacV source_id talkgroup_num t).ts < 4294967296 ∧
    ((unit_group_affiliation_packet siteId wacn nacV source_id talkgroup_num t).ts : Int) % 4294967296 =
      t % 4294967296 ∧
    (call_start_packet siteId wacn nacV talkgroup_num srcU32 t).ts < 4294967296 ∧
    ((call_start_packet siteId wacn nacV talkgroup_num srcU32 t).ts : Int) % 4294967296 =
      t % 4294967296 :=
  ⟨toU16_lt _, toU16_mod _, toU32_lt _, toU32_mod _, toU32_lt _, toU32_mod _,
   toU32_lt _, toU32_mod _⟩

/-! ## Claim C8: decode-side validation -/

/-- The decode-side error kind of §7 of the wire specification. -/
inductive DeserializeError where
  | malformedPacket : DeserializeError
deriving DecidableEq

/-- Byte read with bounds defaulting: reading past the end of the
available bytes yields 0 (only reachable on the success path, where the
length check has already ensured 20 bytes). -/
def rd8 (bytes : List Nat) (i : Nat) : Nat := bytes.getD i 0

/-- Little-endian (host order on the reference platform) 16-bit read. -/
def rd16 (bytes : List Nat) (i : Nat) : Nat :=
  rd8 bytes i + 256 * rd8 bytes (i + 1)

/-- Little-endian (host order on the reference platform) 32-bit read. -/
def rd32 (bytes : List Nat) (i : Nat) : Nat :=
  rd8 bytes i + 256 * rd8 bytes (i + 1) + 65536 * rd8 bytes (i + 2) +
    16777216 * rd8 bytes (i + 3)

/-- Modelled from the spec: the repository source defines the
decode-side helpers `valid_hdr` and `payload_bytes` (lines 115-120) but
contains no consumer-side `deserialize` function; §4.1 of the spec
specifies `deserialize(bytes) -> StatusPacket or error`, failing with
`MalformedPacket` when fewer than 4 header bytes are present, when the
magic bytes mismatch, or when the declared `length*4` exceeds the
available byte count, fields read in the §3 layout in the single
documented (host, little-endian) byte order.  The header checks reuse
the source's `valid_hdr` and `payload_bytes` helpers. -/
def deserialize (bytes : List Nat) : Except DeserializeError Packet :=
  if bytes.length < 4 then .error .malformedPacket
  else
    let p : Packet :=
      { hdr0 := rd8 bytes 0
      , hdr1 := rd8 bytes 1
      , typ := rd8 bytes 2
      , len := rd8 bytes 3
      , p25Id := rd32 bytes 4
      , nac := rd16 bytes 8
      , tgId := rd16 bytes 10
      , radioId := rd32 bytes 12
      , ts := rd32 bytes 16 }
    if valid_hdr p = false then .error .malformedPacket
    else if bytes.length < payload_bytes p then .error .malformedPacket
    else .ok p

/-- **C8.**  Decode-side validation: `deserialize` fails with the
malformed-packet error for every input with fewer than 4 header bytes
(including the empty input), for every input whose magic bytes are not
`M`,`C`, and for every input whose declared `length * 4` exceeds the
available byte count. -/
theorem claim_C8_deserialize_errors (bytes : List Nat)
    (h : bytes.length < 4 ∨ ¬(rd8 bytes 0 = 77 ∧ rd8 bytes 1 = 67) ∨
      bytes.length < rd8 bytes 3 * 4) :
    deserialize bytes = .error .malformedPacket := by
  by_cases h1 : bytes.length < 4
  · simp [deserialize, h1]
  · by_cases h2 : rd8 bytes 0 = 77 ∧ rd8 bytes 1 = 67
    · have h3 : bytes.length < rd8 bytes 3 * 4 := by tauto
      simp [deserialize, h1, valid_hdr, payload_bytes, h2.1, h2.2, h3]
    · have hv : (rd8 bytes 0 == 77 && rd8 bytes 1 == 67) = false := by
        rcases not_and_or.mp h2 with h4 | h4
        · rw [Bool.and_eq_false_iff]
          exact Or.inl (beq_eq_false_iff_ne.mpr h4)
        · rw [Bool.and_eq_false_iff]
          exact Or.inr (beq_eq_false_iff_ne.mpr h4)
      simp [deserialize, h1, valid_hdr, hv]

/-- Witness for C8: the empty input, a 3-byte input, a 20-byte input
with wrong magic, and a 20-byte input declaring `length = 6`
(24 bytes) all fail. -/
theorem claim_C8_witness :
    deserialize [] = .error .malformedPacket ∧
    deserialize [77, 67, 1] = .error .malformedPacket ∧
    deserialize [88, 67, 1, 5, 0, 0, 0, 0, 0, 0, 0, 0, 0, 0, 0, 0, 0, 0, 0, 0] =
      .error .malformedPacket ∧
    deserialize [77, 67, 1, 6, 0, 0, 0, 0, 0, 0, 0, 0, 0, 0, 0, 0, 0, 0, 0, 0] =
      .error .malformedPacket :=
  ⟨claim_C8_deserialize_errors [] (Or.inl (by decide)),
   claim_C8_deserialize_errors [77, 67, 1] (Or.inl (by decide)),
   claim_C8_deserialize_errors [88, 67, 1, 5, 0, 0, 0, 0, 0, 0, 0, 0, 0, 0, 0, 0, 0, 0, 0, 0]
      (Or.inr (Or.inl (by decide))),
   claim_C8_deserialize_errors [77, 67, 1, 6, 0, 0, 0, 0, 0, 0, 0, 0, 0, 0, 0, 0, 0, 0, 0, 0]
      (Or.inr (Or.inr (by decide)))⟩
